import Mathlib

/-!
Verification development for the `struct_to_string` derive-macro crate.

The crate walks a struct's field list and renders each field's declared type
into five target-language spellings (Go, Python, TypeScript, Java, C#), the
sixth (Rust) spelling being the field's own token text; an aggregator then
assembles one definition block per language.

We shallowly embed the crate's type representation and its renderer functions.
A `syn::Type` is modelled by `RustType`, keeping exactly the structure the
crate inspects: the last path segment's identifier and its generic arguments
for `Type::Path`, the element and length expression for `Type::Array`, the
element list for `Type::Tuple`, and a catch-all `other` for every further
`syn::Type` variant (all of which the crate sends to its fallback arm).
Array length expressions keep the three cases the crate distinguishes:
an integer literal, a non-integer literal (with its token text), and a
non-literal expression. Rust `panic!` is modelled by `Except String`.
-/

namespace StructToString

/-- Model of the array length expression `syn::Expr` as far as the crate
inspects it: `litInt n` is `Expr::Lit` holding `Lit::Int` of value `n` (an
unbounded natural here; the crate's `base10_parse::<usize>()` bound is
checked where the crate parses it, in the Go renderer's array arm),
`litOther tok` is `Expr::Lit` holding any other literal whose token text is
`tok`, and `nonLit` is every non-literal expression. -/
inductive ArrayLen where
  | litInt (n : Nat)
  | litOther (tok : String)
  | nonLit
deriving DecidableEq, Repr

mutual

/-- Model of `syn::Type` as inspected by the crate: `path seg args` is
`Type::Path` whose last segment has identifier `seg` and arguments `args`;
`array elem len` is `Type::Array`; `tuple elems` is `Type::Tuple`; `other`
covers every remaining `syn::Type` variant (references, pointers, ...),
which the crate uniformly sends to its final fallback arm. -/
inductive RustType where
  | path (seg : String) (args : PathArgs)
  | array (elem : RustType) (len : ArrayLen)
  | tuple (elems : List RustType)
  | other

/-- Model of `syn::PathArguments` on the last path segment. -/
inductive PathArgs where
  | noArgs
  | angleBracketed (args : List GenericArg)
  | parenthesized

/-- Model of `syn::GenericArgument`: a type argument, or anything else
(lifetime, const, binding, ...), which the crate's `if let` rejects. -/
inductive GenericArg where
  | ty (t : RustType)
  | nonType

end

/-- Rust `str::join` on a list of strings with a separator, as used by the
renderers for tuple element lists. -/
def joinSep (sep : String) : List String → String
  | [] => ""
  | [a] => a
  | a :: b :: rest => a ++ sep ++ joinSep sep (b :: rest)

mutual

/-- Embedding of `rust_type_to_ts_type` from `src/lib.rs`. -/
def rust_type_to_ts_type : RustType → String
  | .path "i32" _ => "number"
  | .path "u32" _ => "number"
  | .path "i64" _ => "number"
  | .path "u64" _ => "number"
  | .path "f32" _ => "number"
  | .path "f64" _ => "number"
  | .path "bool" _ => "boolean"
  | .path "String" _ => "string"
  | .path "char" _ => "string"
  | .path "Option" (.angleBracketed (.ty inner :: _)) =>
      rust_type_to_ts_type inner ++ " | null"
  | .path "Option" _ => "any"
  | .path "Vec" (.angleBracketed (.ty inner :: _)) =>
      rust_type_to_ts_type inner ++ "[]"
  | .path "Vec" _ => "any[]"
  | .path seg _ => seg
  | .array elem _ => rust_type_to_ts_type elem ++ "[]"
  | .tuple elems => "[" ++ joinSep ", " (ts_type_list elems) ++ "]"
  | .other => "any"

/-- Element-wise TypeScript rendering of a tuple's element list
(the `tuple.elems.iter().map(..).collect()` of the source). -/
def ts_type_list : List RustType → List String
  | [] => []
  | t :: ts => rust_type_to_ts_type t :: ts_type_list ts

end

mutual

/-- Embedding of `rust_type_to_python_type` from `src/lib.rs`. -/
def rust_type_to_python_type : RustType → String
  | .path "i32" _ => "int"
  | .path "u32" _ => "int"
  | .path "i64" _ => "int"
  | .path "u64" _ => "int"
  | .path "f32" _ => "float"
  | .path "f64" _ => "float"
  | .path "bool" _ => "bool"
  | .path "String" _ => "str"
  | .path "char" _ => "str"
  | .path "Option" (.angleBracketed (.ty inner :: _)) =>
      "Optional[" ++ rust_type_to_python_type inner ++ "]"
  | .path "Option" _ => "any"
  | .path "Vec" (.angleBracketed (.ty inner :: _)) =>
      "List[" ++ rust_type_to_python_type inner ++ "]"
  | .path "Vec" _ => "any[]"
  | .path seg _ => seg
  | .array elem _ => "List[" ++ rust_type_to_python_type elem ++ "]"
  | .tuple elems => "Tuple[" ++ joinSep ", " (python_type_list elems) ++ "]"
  | .other => "any"

/-- Element-wise Python rendering of a tuple's element list. -/
def python_type_list : List RustType → List String
  | [] => []
  | t :: ts => rust_type_to_python_type t :: python_type_list ts

end

/-- The fixed placeholder prefix the Go renderer emits for tuples. -/
def goTupleMarker : String :=
  "struct\x7b\x7d // CANNOT CONVERT THIS TO THE GO PROGRAMMING LANGUAGE. TUPLES ARE UNSUPPORTED BY GO: ("

/-- `usize::MAX` on the 64-bit hosts the crate is compiled for. The array
arm of the Go renderer parses the literal length with
`base10_parse::<usize>()`, which succeeds exactly for values up to this
bound. -/
def usizeMax : Nat :=
  2 ^ 64 - 1

/-- Stands for the panic message of the `.unwrap()` on
`base10_parse::<usize>()` when a literal array length exceeds `usize`
(a `called Result::unwrap() on an Err value: ...` runtime message whose
exact text the model does not rely on — only the fact that it aborts). -/
def usizeUnwrapPanic : String :=
  "called Result::unwrap() on an Err value"

mutual

/-- Embedding of `rust_type_to_go_type` from `src/lib.rs`. The Rust function
can panic on a fixed-size array: via `panic!` when the length expression is
not an integer literal, and via the `.unwrap()` on `base10_parse::<usize>()`
when it is an integer literal exceeding `usize`. Both aborts are modelled by
`Except String`, the error holding the panic message. -/
def rust_type_to_go_type : RustType → Except String String
  | .path "i8" _ => .ok "int8"
  | .path "u8" _ => .ok "uint8"
  | .path "i16" _ => .ok "int16"
  | .path "u16" _ => .ok "uint16"
  | .path "i32" _ => .ok "int32"
  | .path "u32" _ => .ok "uint32"
  | .path "i64" _ => .ok "int64"
  | .path "u64" _ => .ok "uint64"
  | .path "i128" _ => .ok "big.Int"
  | .path "u128" _ => .ok "big.Int"
  | .path "f32" _ => .ok "float32"
  | .path "f64" _ => .ok "float64"
  | .path "bool" _ => .ok "bool"
  | .path "String" _ => .ok "string"
  | .path "char" _ => .ok "rune"
  | .path "&str" _ => .ok "string"
  | .path "Option" (.angleBracketed (.ty inner :: _)) =>
      match rust_type_to_go_type inner with
      | .ok s => .ok ("*" ++ s)
      | .error e => .error e
  | .path "Option" _ => .ok "any"
  | .path "Vec" (.angleBracketed (.ty inner :: _)) =>
      match rust_type_to_go_type inner with
      | .ok s => .ok ("[]" ++ s)
      | .error e => .error e
  | .path "Vec" _ => .ok "any[]"
  | .path seg _ => .ok seg
  | .array elem len =>
      match rust_type_to_go_type elem with
      | .error e => .error e
      | .ok inner =>
          match len with
          | .litInt n =>
              if n ≤ usizeMax then .ok ("[" ++ toString n ++ "]" ++ inner)
              else .error usizeUnwrapPanic
          | .litOther tok => .error ("Invalid array length expression: " ++ tok)
          | .nonLit => .error "Invalid array length expression:"
  | .tuple elems =>
      match go_type_list elems with
      | .error e => .error e
      | .ok types => .ok (goTupleMarker ++ joinSep ", " types ++ ")")
  | .other => .ok "any"

/-- Element-wise Go rendering of a tuple's element list; the first panicking
element aborts, matching the eager `map(..).collect()` of the source. -/
def go_type_list : List RustType → Except String (List String)
  | [] => .ok []
  | t :: ts =>
      match rust_type_to_go_type t with
      | .error e => .error e
      | .ok s =>
          match go_type_list ts with
          | .error e => .error e
          | .ok ss => .ok (s :: ss)

end

/-- Embedding of `convert_java_primitive_type_to_wrapper_class` from
`src/lib.rs`. -/
def convert_java_primitive_type_to_wrapper_class (inner : String) : String :=
  match inner with
  | "byte" => "Byte"
  | "short" => "Short"
  | "int" => "Integer"
  | "long" => "Long"
  | "float" => "Float"
  | "double" => "Double"
  | "char" => "Character"
  | "boolean" => "Boolean"
  | _ => inner

mutual

/-- Embedding of `rust_type_to_java_type` from `src/lib.rs`. -/
def rust_type_to_java_type : RustType → String
  | .path "i8" _ => "byte"
  | .path "u8" _ => "short"
  | .path "i16" _ => "short"
  | .path "u16" _ => "int"
  | .path "i32" _ => "int"
  | .path "u32" _ => "long"
  | .path "i64" _ => "long"
  | .path "u64" _ => "BigInteger"
  | .path "i128" _ => "BigInteger"
  | .path "u128" _ => "BigInteger"
  | .path "f32" _ => "float"
  | .path "f64" _ => "double"
  | .path "bool" _ => "boolean"
  | .path "String" _ => "String"
  | .path "char" _ => "char"
  | .path "Option" (.angleBracketed (.ty inner :: _)) =>
      convert_java_primitive_type_to_wrapper_class (rust_type_to_java_type inner)
  | .path "Option" _ => "Object"
  | .path "Vec" (.angleBracketed (.ty inner :: _)) =>
      "List<" ++ convert_java_primitive_type_to_wrapper_class (rust_type_to_java_type inner) ++ ">"
  | .path "Vec" _ => "List<Object>"
  | .path seg _ => seg
  | .array elem _ => rust_type_to_java_type elem ++ "[]"
  | .tuple elems => "Tuple<" ++ joinSep ", " (java_type_list elems) ++ ">"
  | .other => "Object"

/-- Element-wise Java rendering (boxed to wrapper classes) of a tuple's
element list. -/
def java_type_list : List RustType → List String
  | [] => []
  | t :: ts =>
      convert_java_primitive_type_to_wrapper_class (rust_type_to_java_type t) :: java_type_list ts

end

mutual

/-- Embedding of `rust_type_to_csharp_type` from `src/lib.rs`. -/
def rust_type_to_csharp_type : RustType → String
  | .path "i8" _ => "sbyte"
  | .path "u8" _ => "byte"
  | .path "i16" _ => "short"
  | .path "u16" _ => "ushort"
  | .path "i32" _ => "int"
  | .path "u32" _ => "uint"
  | .path "i64" _ => "long"
  | .path "u64" _ => "ulong"
  | .path "i128" _ => "BigInteger"
  | .path "u128" _ => "BigInteger"
  | .path "f32" _ => "float"
  | .path "f64" _ => "double"
  | .path "bool" _ => "bool"
  | .path "String" _ => "string"
  | .path "char" _ => "char"
  | .path "Option" (.angleBracketed (.ty inner :: _)) =>
      rust_type_to_csharp_type inner ++ "?"
  | .path "Option" _ => "Object"
  | .path "Vec" (.angleBracketed (.ty inner :: _)) =>
      "List<" ++ rust_type_to_csharp_type inner ++ ">"
  | .path "Vec" _ => "List<Object>"
  | .path seg _ => seg
  | .array elem _ => rust_type_to_csharp_type elem ++ "[]"
  | .tuple elems => "(" ++ joinSep ", " (csharp_type_list elems) ++ ")"
  | .other => "Object"

/-- Element-wise C# rendering of a tuple's element list. -/
def csharp_type_list : List RustType → List String
  | [] => []
  | t :: ts => rust_type_to_csharp_type t :: csharp_type_list ts

end

/-- Boolean prefix test on character lists (auxiliary for `trimEndMatches`). -/
def isPre : List Char → List Char → Bool
  | [], _ => true
  | _ :: _, [] => false
  | a :: as, b :: bs => a == b && isPre as bs

/-- Fuel-bounded repeated removal of the suffix `p` from a reversed character
list `r` (auxiliary for `trimEndMatches`; the fuel is an upper bound on the
number of removals, each of which shortens the list when `p` is nonempty). -/
def stripRepeatedRev : Nat → List Char → List Char → List Char
  | 0, r, _ => r
  | fuel + 1, r, p =>
      if p ≠ [] ∧ isPre p r = true then stripRepeatedRev fuel (r.drop p.length) p else r

/-- Rust `str::trim_end_matches`: repeatedly removes the suffix `pat` from
`s`. With fuel `s.length` every possible removal is performed, since each
removal of a nonempty `pat` strips at least one character. -/
def trimEndMatches (s pat : String) : String :=
  String.mk (stripRepeatedRev s.length s.data.reverse pat.data.reverse).reverse

/-- One field of the input struct as the macro sees it: the optional
identifier (`syn::Field::ident`, absent for tuple structs), the parsed type,
and `tok`, the field type's token text `quote! { #field_type }.to_string()
.replace(" ", "")` as produced by the external quoting facility. -/
structure Field where
  ident : Option String
  ty : RustType
  tok : String

/-- The six per-language accumulated field-line strings built by the macro's
field loop. -/
structure FieldStrings where
  rust : String
  go : String
  python : String
  ts : String
  java : String
  csharp : String
deriving Repr

/-- The initial (all-empty) accumulator of the field loop. -/
def emptyFieldStrings : FieldStrings :=
  ⟨"", "", "", "", "", ""⟩

/-- One iteration of the macro's field loop: `.expect("Field name not found")`
on a missing identifier and the Go renderer's `panic!` are the two abort
points, in that order; every other rendering is total. -/
def processField (acc : FieldStrings) (f : Field) : Except String FieldStrings :=
  match f.ident with
  | none => .error "Field name not found"
  | some field_name =>
      match rust_type_to_go_type f.ty with
      | .error e => .error e
      | .ok go_ty =>
          let is_optional : Bool :=
            match f.ty with
            | .path seg _ => seg == "Option"
            | _ => false
          let ts_field_name := if is_optional then field_name ++ "?" else field_name
          .ok
            { rust := acc.rust ++ "    " ++ field_name ++ ": " ++ f.tok ++ ",\n"
              go := acc.go ++ "    " ++ field_name ++ " " ++ go_ty ++ "\n"
              python := acc.python ++ "    " ++ field_name ++ ": " ++ rust_type_to_python_type f.ty ++ "\n"
              ts := acc.ts ++ "    " ++ ts_field_name ++ ": " ++ rust_type_to_ts_type f.ty ++ ";\n"
              java := acc.java ++ "    " ++ "public" ++ " " ++ rust_type_to_java_type f.ty ++ " " ++ field_name ++ ";\n"
              csharp := acc.csharp ++ "    " ++ "public" ++ " " ++ rust_type_to_csharp_type f.ty ++ " " ++ field_name ++ ";\n" }

/-- The macro's field loop over the ordered field list. -/
def buildFields (fields : List Field) : Except String FieldStrings :=
  fields.foldlM processField emptyFieldStrings

/-- Body of the generated `to_rust_string` accessor. -/
def to_rust_string (name rust_fields : String) : String :=
  "struct " ++ name ++ " \x7b\n" ++ trimEndMatches rust_fields ",\n" ++ "\n\x7d"

/-- Body of the generated `to_go_string` accessor. -/
def to_go_string (name go_fields : String) : String :=
  "type " ++ name ++ " struct \x7b\n" ++ go_fields ++ "\x7d"

/-- Body of the generated `to_python_string` accessor. -/
def to_python_string (name python_fields : String) : String :=
  "@dataclass_json\n@dataclass\nclass " ++ name ++ ":\n" ++ python_fields

/-- Body of the generated `to_typescript_string` accessor. -/
def to_typescript_string (name ts_fields : String) : String :=
  "interface " ++ name ++ " \x7b\n" ++ ts_fields ++ "\x7d"

/-- Body of the generated `to_java_string` accessor. -/
def to_java_string (name java_fields : String) : String :=
  "public class " ++ name ++ " \x7b\n" ++ java_fields ++ "\x7d"

/-- Body of the generated `to_csharp_string` accessor. -/
def to_csharp_string (name csharp_fields : String) : String :=
  "public class " ++ name ++ " \x7b\n" ++ csharp_fields ++ "\x7d"

/-- The macro's input item as far as it inspects it: `structData fields` is
`syn::Data::Struct` with its field list; `nonStruct` is any other item
(enum or union), for which the `if let Data::Struct` body is skipped and all
six accumulated field strings stay empty. -/
inductive Data where
  | structData (fields : List Field)
  | nonStruct

/-- The six generated accessor outputs for one struct. -/
structure Outputs where
  rust : String
  go : String
  python : String
  ts : String
  java : String
  csharp : String
deriving Repr

/-- Embedding of the derive macro entry point `struct_to_string` from
`src/lib.rs`: build the six per-language field strings (aborting, with no
partial output, if the loop panics), then assemble the six accessor bodies.
`name` is the item's identifier. -/
def struct_to_string (name : String) (d : Data) : Except String Outputs :=
  match
    (match d with
     | .structData fields => buildFields fields
     | .nonStruct => .ok emptyFieldStrings) with
  | .error e => .error e
  | .ok fs =>
      .ok
        { rust := to_rust_string name fs.rust
          go := to_go_string name fs.go
          python := to_python_string name fs.python
          ts := to_typescript_string name fs.ts
          java := to_java_string name fs.java
          csharp := to_csharp_string name fs.csharp }

/-- The path-segment identifiers that any of the five type renderers treats
specially; every identifier outside this list reaches every renderer's
named-type fallback arm. -/
def knownSegs : List String :=
  ["i8", "u8", "i16", "u16", "i32", "u32", "i64", "u64", "i128", "u128",
   "f32", "f64", "bool", "String", "char", "&str", "Option", "Vec"]

/-- The Rust-representation line of one field, without the trailing `,\n`
separator: `    <name>: <token text>`. -/
def rustLine (f : Field) : String :=
  "    " ++ f.ident.getD "" ++ ": " ++ f.tok

/-- Concatenation of a string list with `sep` appended after every element
(the shape in which the macro's loop accumulates field lines). -/
def strConcatSep (sep : String) : List String → String
  | [] => ""
  | l :: ls => l ++ sep ++ strConcatSep sep ls

/-- Whether an `Except` computation (our model of panicking Rust code) has
aborted. -/
def isErr {ε α : Type} : Except ε α → Bool
  | .error _ => true
  | .ok _ => false

/-- Whether processing the field aborts the macro: the identifier is missing
or the Go renderer panics on the field's type. -/
def fieldAborts (f : Field) : Bool :=
  f.ident.isNone || isErr (rust_type_to_go_type f.ty)

/-- A sample two-field struct body, `a: i32, b: String`, used as a concrete
test fixture. -/
def sampleFields : List Field :=
  [⟨some "a", .path "i32" .noArgs, "i32"⟩, ⟨some "b", .path "String" .noArgs, "String"⟩]

/-- The six generated accessor outputs for `sampleFields` under the struct
name `M`. -/
def sampleOutputs : Outputs :=
  { rust := "struct M \x7b\n    a: i32,\n    b: String\n\x7d"
    go := "type M struct \x7b\n    a int32\n    b string\n\x7d"
    python := "@dataclass_json\n@dataclass\nclass M:\n    a: int\n    b: str\n"
    ts := "interface M \x7b\n    a: number;\n    b: string;\n\x7d"
    java := "public class M \x7b\n    public int a;\n    public String b;\n\x7d"
    csharp := "public class M \x7b\n    public int a;\n    public string b;\n\x7d" }

/-!
Auxiliary lemmas: string concatenation, `trimEndMatches`, and the field loop.
-/

theorem str_data_append (s t : String) : (s ++ t).data = s.data ++ t.data :=
  rfl

theorem str_length_data (s : String) : s.length = s.data.length :=
  rfl

theorem str_append_assoc (a b c : String) : a ++ b ++ c = a ++ (b ++ c) := by
  apply String.ext
  simp [str_data_append]

theorem str_append_empty (s : String) : s ++ "" = s := by
  apply String.ext
  simp [str_data_append]

theorem str_empty_append (s : String) : "" ++ s = s := by
  apply String.ext
  simp [str_data_append]

theorem isPre_self_append (p x : List Char) : isPre p (p ++ x) = true := by
  induction p with
  | nil => rfl
  | cons a as ih => simp [isPre, ih]

theorem isPre_of_head_ne (a : Char) (p r : List Char) (h : r.head? ≠ some a) :
    isPre (a :: p) r = false := by
  cases r with
  | nil => rfl
  | cons c t =>
      simp only [List.head?_cons, ne_eq, Option.some.injEq] at h
      have hb : (a == c) = false := by
        rw [beq_eq_false_iff_ne]
        exact fun hc => h hc.symm
      simp [isPre, hb]

theorem trim_append_once (Y : String) (h : Y.data.getLast? ≠ some '\n') :
    trimEndMatches (Y ++ ",\n") ",\n" = Y := by
  have hdata : (Y ++ ",\n").data = Y.data ++ [',', '\n'] := rfl
  have hrev : (Y ++ ",\n").data.reverse = '\n' :: ',' :: Y.data.reverse := by
    rw [hdata]; simp
  have hlen : (Y ++ ",\n").length = Y.data.length + 2 := by
    rw [str_length_data, hdata]; simp
  unfold trimEndMatches
  rw [hlen, hrev]
  have hpat : (",\n" : String).data.reverse = ['\n', ','] := rfl
  rw [hpat]
  have step1 : stripRepeatedRev (Y.data.length + 2) ('\n' :: ',' :: Y.data.reverse) ['\n', ','] =
      stripRepeatedRev (Y.data.length + 1) Y.data.reverse ['\n', ','] := by
    show (if _ then _ else _) = _
    rw [if_pos]
    · rfl
    · exact ⟨by simp, by simp [isPre]⟩
  rw [step1]
  have hh : Y.data.reverse.head? ≠ some '\n' := by
    rw [List.head?_reverse]; exact h
  have step2 : stripRepeatedRev (Y.data.length + 1) Y.data.reverse ['\n', ','] = Y.data.reverse := by
    show (if _ then _ else _) = _
    rw [if_neg]
    intro hcon
    rw [isPre_of_head_ne '\n' [','] Y.data.reverse hh] at hcon
    exact absurd hcon.2 (by simp)
  rw [step2]
  show String.mk Y.data.reverse.reverse = Y
  rw [List.reverse_reverse]

theorem processField_isError (acc : FieldStrings) (f : Field) :
    isErr (processField acc f) = fieldAborts f := by
  rcases hid : f.ident with _ | nm <;>
    rcases hgo : rust_type_to_go_type f.ty with e | s <;>
      simp [processField, fieldAborts, hid, hgo, isErr]

theorem processField_ok_rust (acc : FieldStrings) (f : Field) (acc1 : FieldStrings)
    (h : processField acc f = .ok acc1) :
    acc1.rust = acc.rust ++ (rustLine f ++ ",\n") := by
  rcases hid : f.ident with _ | nm <;> rw [processField, hid] at h
  · exact absurd h (by simp)
  · rcases hgo : rust_type_to_go_type f.ty with e | s <;> rw [hgo] at h
    · exact absurd h (by simp)
    · injection h with h2
      rw [← h2, rustLine, hid]
      apply String.ext
      simp [str_data_append]

theorem foldlM_processField_isError (fields : List Field) :
    ∀ acc : FieldStrings,
      isErr (List.foldlM processField acc fields) = fields.any fieldAborts := by
  induction fields with
  | nil => intro acc; rfl
  | cons f fl ih =>
      intro acc
      rw [List.foldlM_cons, List.any_cons]
      have hab := processField_isError acc f
      rcases hp : processField acc f with e | acc1 <;> rw [hp] at hab
      · rw [show ((Except.error e : Except String FieldStrings) >>= fun init =>
            List.foldlM processField init fl) = Except.error e from rfl]
        rw [← hab]
        rfl
      · rw [show ((Except.ok acc1 : Except String FieldStrings) >>= fun init =>
            List.foldlM processField init fl) = List.foldlM processField acc1 fl from rfl]
        rw [← hab, ih acc1]
        rfl

theorem foldlM_processField_rust (fields : List Field) :
    ∀ acc fs : FieldStrings,
      List.foldlM processField acc fields = .ok fs →
        fs.rust = acc.rust ++ strConcatSep ",\n" (fields.map rustLine) := by
  induction fields with
  | nil =>
      intro acc fs h
      rw [List.foldlM_nil] at h
      have h2 : (Except.ok acc : Except String FieldStrings) = .ok fs := h
      injection h2 with h3
      rw [← h3, List.map_nil, strConcatSep, str_append_empty]
  | cons f fl ih =>
      intro acc fs h
      rw [List.foldlM_cons] at h
      rcases hp : processField acc f with e | acc1 <;> rw [hp] at h
      · exact absurd (show (Except.error e : Except String FieldStrings) = .ok fs from h) (by simp)
      · have h1 : List.foldlM processField acc1 fl = .ok fs := h
        have h2 := ih acc1 fs h1
        have h3 := processField_ok_rust acc f acc1 hp
        rw [h2, h3, List.map_cons, strConcatSep]
        apply String.ext
        simp [str_data_append]

theorem strConcatSep_append (sep : String) (xs ys : List String) :
    strConcatSep sep (xs ++ ys) = strConcatSep sep xs ++ strConcatSep sep ys := by
  induction xs with
  | nil => rw [List.nil_append, strConcatSep, str_empty_append]
  | cons x xs ih =>
      rw [List.cons_append, strConcatSep, strConcatSep, ih]
      apply String.ext
      simp [str_data_append]

theorem joinSep_append_single (sep : String) (ls : List String) (a : String) :
    joinSep sep (ls ++ [a]) = strConcatSep sep ls ++ a := by
  induction ls with
  | nil =>
      rw [List.nil_append, joinSep, strConcatSep, str_empty_append]
  | cons x ls ih =>
      cases ls with
      | nil =>
          simp only [List.cons_append, List.nil_append, joinSep, strConcatSep]
          apply String.ext
          simp [str_data_append]
      | cons y l2 =>
          simp only [List.cons_append] at ih ⊢
          rw [joinSep, strConcatSep, ih]
          apply String.ext
          simp [str_data_append]

theorem rustLine_data_ne_nil (f : Field) : (rustLine f).data ≠ [] := by
  rw [rustLine]
  intro h
  rw [str_data_append, str_data_append, str_data_append] at h
  rcases List.append_eq_nil.mp h with ⟨h1, _⟩
  rcases List.append_eq_nil.mp h1 with ⟨⟨⟩, _⟩

theorem rustLine_getLast_ne (f : Field) (h : ∀ c ∈ f.tok.data, c ≠ '\n') :
    (rustLine f).data.getLast? ≠ some '\n' := by
  rw [rustLine, str_data_append]
  by_cases htok : f.tok.data = []
  · rw [htok, List.append_nil, str_data_append]
    rw [List.getLast?_append_of_ne_nil _ (show (": " : String).data ≠ [] by decide)]
    decide
  · rw [List.getLast?_append_of_ne_nil _ htok]
    rw [List.getLast?_eq_getLast _ htok]
    intro hcon
    have hmem := List.getLast_mem htok
    exact h _ hmem (Option.some.inj hcon)

theorem struct_to_string_structData (name : String) (fields : List Field) :
    struct_to_string name (.structData fields) =
      match buildFields fields with
      | .error e => .error e
      | .ok fs =>
          .ok { rust := to_rust_string name fs.rust
                go := to_go_string name fs.go
                python := to_python_string name fs.python
                ts := to_typescript_string name fs.ts
                java := to_java_string name fs.java
                csharp := to_csharp_string name fs.csharp } :=
  rfl

/-!
The claims.
-/

/-- C1 counterexample: the claim asserts that a `u64` field maps to `long`
in Java, but `rust_type_to_java_type` maps `u64` to `BigInteger`. -/
theorem claim_C1_counterexample :
    rust_type_to_java_type (.path "u64" .noArgs) = "BigInteger"
  ∧ ("BigInteger" : String) ≠ "long" :=
  ⟨rfl, by decide⟩

/-- C1 (amended): for the six tabulated primitive kinds (i32, u64, f64, bool,
String, char), the five type-mapping renderers return exactly the table's
strings, except that Java maps `u64` to `BigInteger` (not `long`). The sixth
(Rust) rendering is the field's verbatim token text by construction. -/
theorem claim_C1_primitive_table :
    rust_type_to_go_type (.path "i32" .noArgs) = .ok "int32"
  ∧ rust_type_to_python_type (.path "i32" .noArgs) = "int"
  ∧ rust_type_to_ts_type (.path "i32" .noArgs) = "number"
  ∧ rust_type_to_java_type (.path "i32" .noArgs) = "int"
  ∧ rust_type_to_csharp_type (.path "i32" .noArgs) = "int"
  ∧ rust_type_to_go_type (.path "u64" .noArgs) = .ok "uint64"
  ∧ rust_type_to_python_type (.path "u64" .noArgs) = "int"
  ∧ rust_type_to_ts_type (.path "u64" .noArgs) = "number"
  ∧ rust_type_to_java_type (.path "u64" .noArgs) = "BigInteger"
  ∧ rust_type_to_csharp_type (.path "u64" .noArgs) = "ulong"
  ∧ rust_type_to_go_type (.path "f64" .noArgs) = .ok "float64"
  ∧ rust_type_to_python_type (.path "f64" .noArgs) = "float"
  ∧ rust_type_to_ts_type (.path "f64" .noArgs) = "number"
  ∧ rust_type_to_java_type (.path "f64" .noArgs) = "double"
  ∧ rust_type_to_csharp_type (.path "f64" .noArgs) = "double"
  ∧ rust_type_to_go_type (.path "bool" .noArgs) = .ok "bool"
  ∧ rust_type_to_python_type (.path "bool" .noArgs) = "bool"
  ∧ rust_type_to_ts_type (.path "bool" .noArgs) = "boolean"
  ∧ rust_type_to_java_type (.path "bool" .noArgs) = "boolean"
  ∧ rust_type_to_csharp_type (.path "bool" .noArgs) = "bool"
  ∧ rust_type_to_go_type (.path "String" .noArgs) = .ok "string"
  ∧ rust_type_to_python_type (.path "String" .noArgs) = "str"
  ∧ rust_type_to_ts_type (.path "String" .noArgs) = "string"
  ∧ rust_type_to_java_type (.path "String" .noArgs) = "String"
  ∧ rust_type_to_csharp_type (.path "String" .noArgs) = "string"
  ∧ rust_type_to_go_type (.path "char" .noArgs) = .ok "rune"
  ∧ rust_type_to_python_type (.path "char" .noArgs) = "str"
  ∧ rust_type_to_ts_type (.path "char" .noArgs) = "string"
  ∧ rust_type_to_java_type (.path "char" .noArgs) = "char"
  ∧ rust_type_to_csharp_type (.path "char" .noArgs) = "char" :=
  ⟨rfl, rfl, rfl, rfl, rfl, rfl, rfl, rfl, rfl, rfl,
   rfl, rfl, rfl, rfl, rfl, rfl, rfl, rfl, rfl, rfl,
   rfl, rfl, rfl, rfl, rfl, rfl, rfl, rfl, rfl, rfl⟩

/-- C2 counterexample: the claim asserts that for `[i32; 3]` Java returns the
same string as for `Vec<i32>`; in fact Java renders the fixed array as
`int[]` and the Vec as `List<Integer>`. -/
theorem claim_C2_counterexample :
    rust_type_to_java_type (.array (.path "i32" .noArgs) (.litInt 3)) = "int[]"
  ∧ rust_type_to_java_type (.path "Vec" (.angleBracketed [.ty (.path "i32" .noArgs)])) = "List<Integer>"
  ∧ ("int[]" : String) ≠ "List<Integer>" :=
  ⟨rfl, rfl, by decide⟩

set_option maxHeartbeats 1000000 in
/-- C2 (amended): for a fixed-size array `[T; n]`, Go renders `[n]T'` when
the element renders and the literal length fits `usize` (the
`base10_parse::<usize>().unwrap()` panics for a larger literal), TypeScript
and Python render exactly as they render `Vec<T>`, and Java and C# render
`T'[]` (array notation, which for Java differs from its boxed `List<..>`
rendering of `Vec<T>`). -/
theorem claim_C2_fixed_array (t : RustType) (len : ArrayLen) :
    (∀ s n, rust_type_to_go_type t = .ok s → n ≤ usizeMax →
        rust_type_to_go_type (.array t (.litInt n)) = .ok ("[" ++ toString n ++ "]" ++ s))
  ∧ (∀ s n, rust_type_to_go_type t = .ok s → usizeMax < n →
        rust_type_to_go_type (.array t (.litInt n)) = .error usizeUnwrapPanic)
  ∧ rust_type_to_ts_type (.array t len)
      = rust_type_to_ts_type (.path "Vec" (.angleBracketed [.ty t]))
  ∧ rust_type_to_python_type (.array t len)
      = rust_type_to_python_type (.path "Vec" (.angleBracketed [.ty t]))
  ∧ rust_type_to_java_type (.array t len) = rust_type_to_java_type t ++ "[]"
  ∧ rust_type_to_csharp_type (.array t len) = rust_type_to_csharp_type t ++ "[]" := by
  refine ⟨?_, ?_, ?_, ?_, ?_, ?_⟩
  · intro s n hs hn
    simp [rust_type_to_go_type, hs, hn]
  · intro s n hs hn
    have hne := Nat.not_le.mpr hn
    simp [rust_type_to_go_type, hs, hne]
  · simp [rust_type_to_ts_type]
  · simp [rust_type_to_python_type]
  · simp [rust_type_to_java_type]
  · simp [rust_type_to_csharp_type]

/-- C2 witness: the Go parts of the amended claim at `[i32; 3]` (in range)
and `[i32; 18446744073709551616]` (one past `usize::MAX`, panics). -/
theorem claim_C2_witness :
    rust_type_to_go_type (.path "i32" .noArgs) = .ok "int32"
  ∧ (3 : Nat) ≤ usizeMax
  ∧ rust_type_to_go_type (.array (.path "i32" .noArgs) (.litInt 3))
      = .ok ("[" ++ toString 3 ++ "]" ++ "int32")
  ∧ usizeMax < 18446744073709551616
  ∧ rust_type_to_go_type (.array (.path "i32" .noArgs) (.litInt 18446744073709551616))
      = .error usizeUnwrapPanic :=
  ⟨rfl, by decide,
   (claim_C2_fixed_array (.path "i32" .noArgs) (.litInt 3)).1 "int32" 3 rfl (by decide),
   by decide,
   (claim_C2_fixed_array (.path "i32" .noArgs) (.litInt 18446744073709551616)).2.1
     "int32" 18446744073709551616 rfl (by decide)⟩

/-- C4 counterexample: the claim asserts the Go renderer never fails on a
tuple and embeds the element list verbatim; in fact it panics when an element
itself panics (here a nested fixed array with a non-literal length), and the
placeholder embeds the elements' Go spellings (`string`), not the source
spellings (`String`). -/
theorem claim_C4_counterexample :
    isErr (rust_type_to_go_type (.tuple [.array (.path "i32" .noArgs) .nonLit])) = true
  ∧ rust_type_to_go_type (.tuple [.path "String" .noArgs])
      = .ok "struct\x7b\x7d // CANNOT CONVERT THIS TO THE GO PROGRAMMING LANGUAGE. TUPLES ARE UNSUPPORTED BY GO: (string)" :=
  ⟨rfl, rfl⟩

/-- C4 (amended): for a tuple whose elements all render successfully, the Go
renderer returns the fixed visible-error placeholder — the non-support marker
followed by the elements' Go renderings joined by `, ` — and it fails exactly
when rendering some element fails. -/
theorem claim_C4_tuple_go (elems : List RustType) :
    (∀ types, go_type_list elems = .ok types →
        rust_type_to_go_type (.tuple elems) = .ok (goTupleMarker ++ joinSep ", " types ++ ")"))
  ∧ isErr (rust_type_to_go_type (.tuple elems)) = isErr (go_type_list elems) := by
  constructor
  · intro types h
    simp [rust_type_to_go_type, h]
  · rcases hg : go_type_list elems with e | ts <;> simp [rust_type_to_go_type, hg, isErr]

/-- C4 witness: the placeholder for the tuple `(i32, String)`. -/
theorem claim_C4_witness :
    go_type_list [.path "i32" .noArgs, .path "String" .noArgs] = .ok ["int32", "string"]
  ∧ rust_type_to_go_type (.tuple [.path "i32" .noArgs, .path "String" .noArgs])
      = .ok (goTupleMarker ++ joinSep ", " ["int32", "string"] ++ ")") :=
  ⟨rfl, (claim_C4_tuple_go _).1 ["int32", "string"] rfl⟩

/-- C7: `Option` and `Vec` written with zero generic arguments (either no
argument clause at all, or empty angle brackets) never fail; every renderer
returns its language-specific fallback marker: `any`/`any[]` for TypeScript,
Python and Go, `Object`/`List<Object>` for Java and C#. -/
theorem claim_C7_zero_arg_wrappers :
    rust_type_to_ts_type (.path "Option" .noArgs) = "any"
  ∧ rust_type_to_python_type (.path "Option" .noArgs) = "any"
  ∧ rust_type_to_go_type (.path "Option" .noArgs) = .ok "any"
  ∧ rust_type_to_java_type (.path "Option" .noArgs) = "Object"
  ∧ rust_type_to_csharp_type (.path "Option" .noArgs) = "Object"
  ∧ rust_type_to_ts_type (.path "Option" (.angleBracketed [])) = "any"
  ∧ rust_type_to_python_type (.path "Option" (.angleBracketed [])) = "any"
  ∧ rust_type_to_go_type (.path "Option" (.angleBracketed [])) = .ok "any"
  ∧ rust_type_to_java_type (.path "Option" (.angleBracketed [])) = "Object"
  ∧ rust_type_to_csharp_type (.path "Option" (.angleBracketed [])) = "Object"
  ∧ rust_type_to_ts_type (.path "Vec" .noArgs) = "any[]"
  ∧ rust_type_to_python_type (.path "Vec" .noArgs) = "any[]"
  ∧ rust_type_to_go_type (.path "Vec" .noArgs) = .ok "any[]"
  ∧ rust_type_to_java_type (.path "Vec" .noArgs) = "List<Object>"
  ∧ rust_type_to_csharp_type (.path "Vec" .noArgs) = "List<Object>"
  ∧ rust_type_to_ts_type (.path "Vec" (.angleBracketed [])) = "any[]"
  ∧ rust_type_to_python_type (.path "Vec" (.angleBracketed [])) = "any[]"
  ∧ rust_type_to_go_type (.path "Vec" (.angleBracketed [])) = .ok "any[]"
  ∧ rust_type_to_java_type (.path "Vec" (.angleBracketed [])) = "List<Object>"
  ∧ rust_type_to_csharp_type (.path "Vec" (.angleBracketed [])) = "List<Object>" :=
  ⟨rfl, rfl, rfl, rfl, rfl, rfl, rfl, rfl, rfl, rfl,
   rfl, rfl, rfl, rfl, rfl, rfl, rfl, rfl, rfl, rfl⟩

/-- C10: the TypeScript and Python renderers do not recognize the integer
primitive names i8, u8, i16, u16, i128, u128; each such name falls through to
the named-type fallback and is returned verbatim (not `number`/`int`). -/
theorem claim_C10_narrow_int_fallback :
    rust_type_to_ts_type (.path "i8" .noArgs) = "i8"
  ∧ rust_type_to_python_type (.path "i8" .noArgs) = "i8"
  ∧ rust_type_to_ts_type (.path "u8" .noArgs) = "u8"
  ∧ rust_type_to_python_type (.path "u8" .noArgs) = "u8"
  ∧ rust_type_to_ts_type (.path "i16" .noArgs) = "i16"
  ∧ rust_type_to_python_type (.path "i16" .noArgs) = "i16"
  ∧ rust_type_to_ts_type (.path "u16" .noArgs) = "u16"
  ∧ rust_type_to_python_type (.path "u16" .noArgs) = "u16"
  ∧ rust_type_to_ts_type (.path "i128" .noArgs) = "i128"
  ∧ rust_type_to_python_type (.path "i128" .noArgs) = "i128"
  ∧ rust_type_to_ts_type (.path "u128" .noArgs) = "u128"
  ∧ rust_type_to_python_type (.path "u128" .noArgs) = "u128" :=
  ⟨rfl, rfl, rfl, rfl, rfl, rfl, rfl, rfl, rfl, rfl, rfl, rfl⟩

/-- C3 counterexample: the claim asserts generation aborts exactly when the
struct contains a fixed-size array with a non-literal length; here the field
type `Foo<[i32; N]>` contains such an array (length `N` is not a literal),
yet generation succeeds, because the Go renderer's recursion never enters the
arguments of the unrecognized wrapper `Foo`. -/
theorem claim_C3_counterexample :
    isErr (struct_to_string "S" (.structData
      [⟨some "x",
        .path "Foo" (.angleBracketed [.ty (.array (.path "i32" .noArgs) .nonLit)]),
        "Foo<[i32;N]>"⟩])) = false :=
  rfl

/-- C3 (amended): generation aborts (producing no output at all, by the
`Except` model) exactly when some field has no derivable name or the Go
renderer fails on the field's type — that is, the Go rendering recursion
reaches a fixed-size array whose length expression is not a literal integer
fitting `usize` (a non-literal expression hits the `panic!`, an over-`usize`
literal hits the `base10_parse::<usize>().unwrap()` panic); such arrays
nested inside unrecognized named wrappers are never reached. -/
theorem claim_C3_abort_iff (name : String) (fields : List Field) :
    isErr (struct_to_string name (.structData fields)) = true
      ↔ ∃ f ∈ fields, f.ident = none ∨ isErr (rust_type_to_go_type f.ty) = true := by
  have h1 : isErr (struct_to_string name (.structData fields)) = isErr (buildFields fields) := by
    rw [struct_to_string_structData]
    rcases hb : buildFields fields with e | fs <;> simp [isErr]
  rw [h1, buildFields, foldlM_processField_isError]
  simp [List.any_eq_true, fieldAborts, Option.isNone_iff_eq_none]

/-- C5: rendering of `Option<T>`: Python wraps as `Optional[T']`; TypeScript
returns `T' | null` as the type string while the field loop appends `?` to
the field name (not to the type string); Go renders `*T'`; Java boxes a
primitive `T'` to its wrapper class and leaves any other string unchanged;
C# appends `?`. -/
theorem claim_C5_option_rendering (t : RustType) :
    rust_type_to_python_type (.path "Option" (.angleBracketed [.ty t]))
      = "Optional[" ++ rust_type_to_python_type t ++ "]"
  ∧ rust_type_to_ts_type (.path "Option" (.angleBracketed [.ty t]))
      = rust_type_to_ts_type t ++ " | null"
  ∧ (∀ s, rust_type_to_go_type t = .ok s →
      rust_type_to_go_type (.path "Option" (.angleBracketed [.ty t])) = .ok ("*" ++ s))
  ∧ rust_type_to_java_type (.path "Option" (.angleBracketed [.ty t]))
      = convert_java_primitive_type_to_wrapper_class (rust_type_to_java_type t)
  ∧ convert_java_primitive_type_to_wrapper_class "int" = "Integer"
  ∧ (∀ s, s ∉ (["byte", "short", "int", "long", "float", "double", "char", "boolean"] : List String) →
      convert_java_primitive_type_to_wrapper_class s = s)
  ∧ rust_type_to_csharp_type (.path "Option" (.angleBracketed [.ty t]))
      = rust_type_to_csharp_type t ++ "?"
  ∧ (∀ acc nm tok out,
      processField acc ⟨some nm, .path "Option" (.angleBracketed [.ty t]), tok⟩ = .ok out →
        out.ts = acc.ts ++ "    " ++ (nm ++ "?") ++ ": "
          ++ rust_type_to_ts_type (.path "Option" (.angleBracketed [.ty t])) ++ ";\n") := by
  refine ⟨?_, ?_, ?_, ?_, rfl, ?_, ?_, ?_⟩
  · simp [rust_type_to_python_type]
  · simp [rust_type_to_ts_type]
  · intro s hs
    simp [rust_type_to_go_type, hs]
  · simp [rust_type_to_java_type]
  · intro s hs
    rw [convert_java_primitive_type_to_wrapper_class.eq_def]
    split <;> simp_all
  · simp [rust_type_to_csharp_type]
  · intro acc nm tok out h
    simp only [processField] at h
    rcases hg : rust_type_to_go_type (.path "Option" (.angleBracketed [.ty t])) with e | s <;>
      rw [hg] at h
    · exact absurd h (by simp)
    · injection h with h2
      rw [← h2]
      simp

/-- C5 witness: the theorem's conditional parts at `T = i32` and at the
non-primitive string `Foo`. -/
theorem claim_C5_witness :
    rust_type_to_go_type (.path "i32" .noArgs) = .ok "int32"
  ∧ rust_type_to_go_type (.path "Option" (.angleBracketed [.ty (.path "i32" .noArgs)]))
      = .ok ("*" ++ "int32")
  ∧ ("Foo" : String) ∉ (["byte", "short", "int", "long", "float", "double", "char", "boolean"] : List String)
  ∧ convert_java_primitive_type_to_wrapper_class "Foo" = "Foo"
  ∧ processField emptyFieldStrings
      ⟨some "x", .path "Option" (.angleBracketed [.ty (.path "i32" .noArgs)]), "Option<i32>"⟩
      = .ok { rust := "    x: Option<i32>,\n", go := "    x *int32\n",
              python := "    x: Optional[int]\n", ts := "    x?: number | null;\n",
              java := "    public Integer x;\n", csharp := "    public int? x;\n" }
  ∧ ({ rust := "    x: Option<i32>,\n", go := "    x *int32\n",
       python := "    x: Optional[int]\n", ts := "    x?: number | null;\n",
       java := "    public Integer x;\n", csharp := "    public int? x;\n" } : FieldStrings).ts
      = emptyFieldStrings.ts ++ "    " ++ ("x" ++ "?") ++ ": "
        ++ rust_type_to_ts_type (.path "Option" (.angleBracketed [.ty (.path "i32" .noArgs)])) ++ ";\n" := by
  have h5 : processField emptyFieldStrings
      ⟨some "x", .path "Option" (.angleBracketed [.ty (.path "i32" .noArgs)]), "Option<i32>"⟩
      = .ok { rust := "    x: Option<i32>,\n", go := "    x *int32\n",
              python := "    x: Optional[int]\n", ts := "    x?: number | null;\n",
              java := "    public Integer x;\n", csharp := "    public int? x;\n" } := rfl
  exact ⟨rfl,
    (claim_C5_option_rendering (.path "i32" .noArgs)).2.2.1 "int32" rfl,
    by decide,
    (claim_C5_option_rendering (.path "i32" .noArgs)).2.2.2.2.2.1 "Foo" (by decide),
    h5,
    (claim_C5_option_rendering (.path "i32" .noArgs)).2.2.2.2.2.2.2 emptyFieldStrings "x" "Option<i32>" _ h5⟩

set_option maxHeartbeats 1000000 in
/-- C6: a path whose last-segment identifier matches none of the names any
renderer treats specially is returned verbatim by all five type-mapping
renderers (and the Go renderer cannot fail on it); the sixth (Rust) rendering
is the verbatim token text by construction. -/
theorem claim_C6_named_fallback (seg : String) (args : PathArgs) (h : seg ∉ knownSegs) :
    rust_type_to_ts_type (.path seg args) = seg
  ∧ rust_type_to_python_type (.path seg args) = seg
  ∧ rust_type_to_go_type (.path seg args) = .ok seg
  ∧ rust_type_to_java_type (.path seg args) = seg
  ∧ rust_type_to_csharp_type (.path seg args) = seg := by
  refine ⟨?_, ?_, ?_, ?_, ?_⟩
  · rw [rust_type_to_ts_type.eq_def]
    split <;> simp_all [knownSegs]
  · rw [rust_type_to_python_type.eq_def]
    split <;> simp_all [knownSegs]
  · rw [rust_type_to_go_type.eq_def]
    split <;> simp_all [knownSegs]
  · rw [rust_type_to_java_type.eq_def]
    split <;> simp_all [knownSegs]
  · rw [rust_type_to_csharp_type.eq_def]
    split <;> simp_all [knownSegs]

/-- C6 witness: the fallback at the custom identifier `Foo`. -/
theorem claim_C6_witness :
    ("Foo" : String) ∉ knownSegs
  ∧ rust_type_to_ts_type (.path "Foo" .noArgs) = "Foo"
  ∧ rust_type_to_python_type (.path "Foo" .noArgs) = "Foo"
  ∧ rust_type_to_go_type (.path "Foo" .noArgs) = .ok "Foo"
  ∧ rust_type_to_java_type (.path "Foo" .noArgs) = "Foo"
  ∧ rust_type_to_csharp_type (.path "Foo" .noArgs) = "Foo" := by
  have h : ("Foo" : String) ∉ knownSegs := by decide
  obtain ⟨h1, h2, h3, h4, h5⟩ := claim_C6_named_fallback "Foo" .noArgs h
  exact ⟨h, h1, h2, h3, h4, h5⟩

/-- C8: when the macro succeeds on a non-empty field list (whose last field's
token text contains no newline, as real token text never does), the generated
`to_rust_string` returns `struct <Name> {\n`, then one line `    <name>: <tok>`
per field joined by the separator `,\n` — so every field line but the last
ends in `,\n`, the trailing `,\n` of the last field line being trimmed —
followed by `\n}`. -/
theorem claim_C8_rust_block (name : String) (fields : List Field) (out : Outputs)
    (h1 : struct_to_string name (.structData fields) = .ok out)
    (h2 : fields ≠ [])
    (h3 : ∀ c ∈ (fields.getLast h2).tok.data, c ≠ '\n') :
    out.rust = "struct " ++ name ++ " \x7b\n"
      ++ joinSep ",\n" (fields.map rustLine) ++ "\n\x7d" := by
  rw [struct_to_string_structData] at h1
  rcases hb : buildFields fields with e | fs <;> rw [hb] at h1
  · exact absurd h1 (by simp)
  · injection h1 with h4
    have hbr : List.foldlM processField emptyFieldStrings fields = .ok fs := hb
    have hr := foldlM_processField_rust fields emptyFieldStrings fs hbr
    rw [show emptyFieldStrings.rust = "" from rfl, str_empty_append] at hr
    have key : strConcatSep ",\n" (List.map rustLine fields)
        = (strConcatSep ",\n" (List.map rustLine fields.dropLast)
            ++ rustLine (fields.getLast h2)) ++ ",\n" := by
      conv_lhs => rw [← List.dropLast_append_getLast h2]
      rw [List.map_append, strConcatSep_append, List.map_cons, List.map_nil,
        strConcatSep, strConcatSep]
      apply String.ext
      simp [str_data_append]
    rw [key] at hr
    have hY : (strConcatSep ",\n" (List.map rustLine fields.dropLast)
        ++ rustLine (fields.getLast h2)).data.getLast? ≠ some '\n' := by
      rw [str_data_append, List.getLast?_append_of_ne_nil _ (rustLine_data_ne_nil _)]
      exact rustLine_getLast_ne _ h3
    have htrim := trim_append_once _ hY
    have hjoin : joinSep ",\n" (List.map rustLine fields)
        = strConcatSep ",\n" (List.map rustLine fields.dropLast)
          ++ rustLine (fields.getLast h2) := by
      conv_lhs => rw [← List.dropLast_append_getLast h2]
      rw [List.map_append, List.map_cons, List.map_nil, joinSep_append_single]
    rw [← h4]
    show to_rust_string name fs.rust = _
    rw [to_rust_string, hr, htrim, hjoin]

/-- C8 witness: the sample struct `M { a: i32, b: String }`. -/
theorem claim_C8_witness :
    struct_to_string "M" (.structData sampleFields) = .ok sampleOutputs
  ∧ sampleFields ≠ []
  ∧ sampleOutputs.rust = "struct " ++ "M" ++ " \x7b\n"
      ++ joinSep ",\n" (sampleFields.map rustLine) ++ "\n\x7d" := by
  have hne : sampleFields ≠ [] := by simp [sampleFields]
  refine ⟨rfl, hne, claim_C8_rust_block "M" sampleFields sampleOutputs rfl hne ?_⟩
  rw [show sampleFields.getLast hne = ⟨some "b", .path "String" .noArgs, "String"⟩ from rfl]
  decide

/-- C9: on an input item that is not a struct with named fields — an enum or
union (`nonStruct`), or a unit struct (empty field list) — the macro does not
fail: it still generates all six accessors, each returning its block template
with an empty field section. -/
theorem claim_C9_non_struct_empty (name : String) :
    struct_to_string name .nonStruct
        = .ok { rust := "struct " ++ name ++ " \x7b\n\n\x7d"
                go := "type " ++ name ++ " struct \x7b\n\x7d"
                python := "@dataclass_json\n@dataclass\nclass " ++ name ++ ":\n"
                ts := "interface " ++ name ++ " \x7b\n\x7d"
                java := "public class " ++ name ++ " \x7b\n\x7d"
                csharp := "public class " ++ name ++ " \x7b\n\x7d" }
  ∧ struct_to_string name (.structData [])
        = .ok { rust := "struct " ++ name ++ " \x7b\n\n\x7d"
                go := "type " ++ name ++ " struct \x7b\n\x7d"
                python := "@dataclass_json\n@dataclass\nclass " ++ name ++ ":\n"
                ts := "interface " ++ name ++ " \x7b\n\x7d"
                java := "public class " ++ name ++ " \x7b\n\x7d"
                csharp := "public class " ++ name ++ " \x7b\n\x7d" } := by
  have hrust : to_rust_string name "" = "struct " ++ name ++ " \x7b\n\n\x7d" := by
    rw [to_rust_string]
    rw [show trimEndMatches "" ",\n" = "" from rfl]
    apply String.ext
    simp [str_data_append]
  have hgo : to_go_string name "" = "type " ++ name ++ " struct \x7b\n\x7d" := by
    rw [to_go_string]
    apply String.ext
    simp [str_data_append]
  have hpy : to_python_string name "" = "@dataclass_json\n@dataclass\nclass " ++ name ++ ":\n" := by
    rw [to_python_string, str_append_empty]
  have hts : to_typescript_string name "" = "interface " ++ name ++ " \x7b\n\x7d" := by
    rw [to_typescript_string]
    apply String.ext
    simp [str_data_append]
  have hjava : to_java_string name "" = "public class " ++ name ++ " \x7b\n\x7d" := by
    rw [to_java_string]
    apply String.ext
    simp [str_data_append]
  have hcsharp : to_csharp_string name "" = "public class " ++ name ++ " \x7b\n\x7d" := by
    rw [to_csharp_string]
    apply String.ext
    simp [str_data_append]
  constructor
  · rw [show struct_to_string name .nonStruct
        = .ok { rust := to_rust_string name "", go := to_go_string name ""
                python := to_python_string name "", ts := to_typescript_string name ""
                java := to_java_string name "", csharp := to_csharp_string name "" } from rfl]
    rw [hrust, hgo, hpy, hts, hjava, hcsharp]
  · rw [show struct_to_string name (.structData [])
        = .ok { rust := to_rust_string name "", go := to_go_string name ""
                python := to_python_string name "", ts := to_typescript_string name ""
                java := to_java_string name "", csharp := to_csharp_string name "" } from rfl]
    rw [hrust, hgo, hpy, hts, hjava, hcsharp]

end StructToString
